import Mathlib

/-
Verification of the local cross-view vessel synchronization mechanism of the
maritime monitoring single-page application: the local durable mirror (the
`registeredVessels` key in browser local storage), the shared geolocation
position source, and the per-tracker location state machine.

Numbers reported by the platform geolocation API are modelled as rationals,
timestamps as naturals, storage blobs as parsed vessel lists (with the raw
string layer modelled separately where parsing itself is at issue).
-/

namespace Maritime

/-- Safety status of a registered fishing vessel: the closed enumeration
`'safe' | 'warning' | 'danger'` of the `BoatData` interface in `App.tsx`. -/
inductive Status where
  | safe
  | warning
  | danger
deriving DecidableEq

/-- A captured position with its capture timestamp: the `location` field of
`BoatData` and `CoastGuardVessel` in `App.tsx`. -/
structure Location where
  lat : ℚ
  lng : ℚ
  timestamp : ℕ
deriving DecidableEq

/-- A registered fishing vessel record: the `BoatData` interface in `App.tsx`. -/
structure BoatData where
  aisId : String
  boatId : String
  location : Location
  status : Status
  speed : ℚ
  heading : ℚ
  lastUpdate : ℕ
  fishermanName : Option String
  contactInfo : Option String
deriving DecidableEq

/-- The mirror-upsert step embedded in `handleFishermanRegistration`
(`App.tsx` lines 209-217): `vessels.findIndex(boat => boat.aisId === aisId)`,
then replace the first matching entry in place (`vessels[existingIndex] =
newBoat`), else append (`vessels.push(newBoat)`). -/
def upsertVessels : List BoatData → BoatData → List BoatData
  | [], w => [w]
  | b :: rest, w =>
    if b.aisId == w.aisId then w :: rest else b :: upsertVessels rest w

/-- The mirror content after a sequence of upserts starting from an empty
mirror. -/
def mirrorAfter (ws : List BoatData) : List BoatData :=
  ws.foldl upsertVessels []

/-- The argument of the last upsert in the sequence `ws` whose identifier is
`i`, if any. -/
def lastWrite (ws : List BoatData) (i : String) : Option BoatData :=
  ws.foldl (fun acc w => if w.aisId == i then some w else acc) none

theorem mem_upsertVessels {store : List BoatData} {w b : BoatData}
    (h : b ∈ upsertVessels store w) : b = w ∨ b ∈ store := by
  induction store with
  | nil => simpa [upsertVessels] using h
  | cons x rest ih =>
    rw [upsertVessels] at h
    by_cases hx : x.aisId == w.aisId
    · rw [if_pos hx] at h
      rcases List.mem_cons.mp h with h | h
      · exact Or.inl h
      · exact Or.inr (List.mem_cons_of_mem x h)
    · rw [if_neg hx] at h
      rcases List.mem_cons.mp h with h | h
      · exact Or.inr (h ▸ List.mem_cons_self x rest)
      · rcases ih h with h | h
        · exact Or.inl h
        · exact Or.inr (List.mem_cons_of_mem x h)

theorem nodup_upsertVessels {store : List BoatData} {w : BoatData}
    (h : (store.map (fun b => b.aisId)).Nodup) :
    ((upsertVessels store w).map (fun b => b.aisId)).Nodup := by
  induction store with
  | nil => simp [upsertVessels]
  | cons x rest ih =>
    rw [List.map_cons, List.nodup_cons] at h
    rw [upsertVessels]
    by_cases hx : x.aisId == w.aisId
    · rw [if_pos hx, List.map_cons, List.nodup_cons]
      refine ⟨?_, h.2⟩
      have hxw : x.aisId = w.aisId := by simpa using hx
      rw [← hxw]
      exact h.1
    · rw [if_neg hx, List.map_cons, List.nodup_cons]
      refine ⟨?_, ih h.2⟩
      intro hmem
      rcases List.mem_map.mp hmem with ⟨b, hb, hb2⟩
      rcases mem_upsertVessels hb with rfl | hb
      · exact hx (by simpa using hb2.symm)
      · exact h.1 (List.mem_map.mpr ⟨b, hb, hb2⟩)

theorem find?_upsertVessels_eq (store : List BoatData) (w : BoatData)
    (i : String) (h : w.aisId = i) :
    (upsertVessels store w).find? (fun b => b.aisId == i) = some w := by
  induction store with
  | nil => simp [upsertVessels, List.find?, h]
  | cons x rest ih =>
    rw [upsertVessels]
    by_cases hx : x.aisId == w.aisId
    · rw [if_pos hx]
      simp [List.find?, h]
    · rw [if_neg hx]
      have hxi : ¬ (x.aisId == i) = true := by
        intro hc
        exact hx (by simp_all)
      simp only [List.find?]
      rw [Bool.eq_false_iff.mpr hxi]
      exact ih

theorem find?_upsertVessels_ne (store : List BoatData) (w : BoatData)
    (i : String) (h : ¬ w.aisId = i) :
    (upsertVessels store w).find? (fun b => b.aisId == i) =
      store.find? (fun b => b.aisId == i) := by
  induction store with
  | nil =>
    simp only [upsertVessels, List.find?]
    have : ¬ (w.aisId == i) = true := by simpa using h
    rw [Bool.eq_false_iff.mpr this]
  | cons x rest ih =>
    rw [upsertVessels]
    by_cases hx : x.aisId == w.aisId
    · rw [if_pos hx]
      have hxi : ¬ (x.aisId == i) = true := by
        intro hc
        have : x.aisId = i := by simpa using hc
        have hxw : x.aisId = w.aisId := by simpa using hx
        exact h (hxw ▸ this)
      have hwi : ¬ (w.aisId == i) = true := by simpa using h
      simp only [List.find?]
      rw [Bool.eq_false_iff.mpr hxi, Bool.eq_false_iff.mpr hwi]
    · rw [if_neg hx]
      simp only [List.find?]
      cases hxi : (x.aisId == i) with
      | true => rfl
      | false => exact ih

theorem foldl_upsert_find? (ws : List BoatData) :
    ∀ (store : List BoatData) (i : String),
      (ws.foldl upsertVessels store).find? (fun b => b.aisId == i) =
        ws.foldl (fun acc w => if w.aisId == i then some w else acc)
          (store.find? (fun b => b.aisId == i)) := by
  induction ws with
  | nil => intro store i; rfl
  | cons w ws ih =>
    intro store i
    rw [List.foldl_cons, List.foldl_cons, ih]
    congr 1
    by_cases h : w.aisId = i
    · rw [if_pos (by simpa using h)]
      exact find?_upsertVessels_eq store w i h
    · rw [if_neg (by simpa using h)]
      exact find?_upsertVessels_ne store w i h

theorem foldl_upsert_nodup (ws : List BoatData) :
    ∀ store : List BoatData, (store.map (fun b => b.aisId)).Nodup →
      ((ws.foldl upsertVessels store).map (fun b => b.aisId)).Nodup := by
  induction ws with
  | nil => intro store h; exact h
  | cons w ws ih =>
    intro store h
    rw [List.foldl_cons]
    exact ih _ (nodup_upsertVessels h)

theorem lastWrite_isSome (ws : List BoatData) (i : String) :
    ∀ o : Option BoatData,
      (ws.foldl (fun acc w => if w.aisId == i then some w else acc) o).isSome =
        (o.isSome || ws.any (fun w => w.aisId == i)) := by
  induction ws with
  | nil => intro o; simp
  | cons w ws ih =>
    intro o
    rw [List.foldl_cons, ih]
    by_cases h : w.aisId == i
    · simp [h]
    · simp [h]

/-- Claim C1: after any sequence of upserts on the mirror, identifiers in the
mirror are pairwise distinct (no duplicate entries: a colliding upsert
replaces in place), lookup by identifier returns exactly the argument of the
last upsert with that identifier, and an identifier is present in the mirror
precisely when some upsert in the sequence used it. -/
theorem upsert_last_write_wins (ws : List BoatData) (i : String) :
    ((mirrorAfter ws).map (fun b => b.aisId)).Nodup ∧
    (mirrorAfter ws).find? (fun b => b.aisId == i) = lastWrite ws i ∧
    (lastWrite ws i).isSome = ws.any (fun w => w.aisId == i) := by
  refine ⟨foldl_upsert_nodup ws [] (by simp), ?_, ?_⟩
  · rw [mirrorAfter, foldl_upsert_find? ws [] i, lastWrite]
    rfl
  · rw [lastWrite, lastWrite_isSome ws i none]
    simp

/-- Outcome of one `loadVesselsFromStorage` call (`App.tsx` lines 74-90): the
vessel list installed via `setAllBoats`, and whether the `catch` branch logged
a parse failure via `console.error`. -/
structure LoadResult where
  boats : List BoatData
  loggedParseError : Bool
deriving DecidableEq

/-- `loadVesselsFromStorage` (`App.tsx` lines 74-90), with the raw storage
layer explicit: `store` is the string at
`localStorage.getItem('registeredVessels')` (`none` when the key is missing)
and `parse` is the platform `JSON.parse` typed at the vessel-list schema, a
thrown exception modelled as `Except.error`. A missing key yields the empty
list; a parse failure is caught, logged, and also yields the empty list. -/
def loadVesselsFromStorage (parse : String → Except String (List BoatData))
    (store : Option String) : LoadResult :=
  match store with
  | none => ⟨[], false⟩
  | some s =>
    match parse s with
    | .ok vessels => ⟨vessels, false⟩
    | .error _ => ⟨[], true⟩

/-- Claim C2: `loadVesselsFromStorage` is a total function into plain vessel
lists (no exception escapes to the caller): a missing mirror key yields the
empty list without logging an error, and stored content that fails to parse
yields the empty list with the failure logged. -/
theorem readAll_never_fails (parse : String → Except String (List BoatData))
    (store : Option String) :
    (store = none → loadVesselsFromStorage parse store = ⟨[], false⟩) ∧
    (∀ s e, store = some s → parse s = Except.error e →
      loadVesselsFromStorage parse store = ⟨[], true⟩) := by
  constructor
  · rintro rfl
    rfl
  · rintro s e rfl hp
    simp [loadVesselsFromStorage, hp]

/-- Witness for claim C2 at a missing key and at a malformed blob under a
parser that rejects everything. -/
theorem readAll_never_fails_witness :
    loadVesselsFromStorage (fun s => Except.error s) none = ⟨[], false⟩ ∧
    loadVesselsFromStorage (fun s => Except.error s) (some "not json") =
      ⟨[], true⟩ :=
  ⟨(readAll_never_fails (fun s => Except.error s) none).1 rfl,
   (readAll_never_fails (fun s => Except.error s) (some "not json")).2
     "not json" "not json" rfl rfl⟩

/-- One position sample from the platform geolocation API: the
`position.coords` fields consumed by the trackers. `speed` and `heading` are
optional because the platform reports `null` when they are unavailable. -/
structure Coords where
  latitude : ℚ
  longitude : ℚ
  accuracy : ℚ
  speed : Option ℚ
  heading : Option ℚ
deriving DecidableEq

/-- State of the `SharedGeolocationService` singleton
(`sharedGeolocation.ts`), instrumented with cumulative hardware counters (the
counting mock of the spec): `opens` counts the
`navigator.geolocation.watchPosition` calls made by `startWatching`, `closes`
counts the `navigator.geolocation.clearWatch` calls made by `stopWatching`.
Callback handles are numbered; `callbacks` and `errorCallbacks` model the two
`Set` fields of the class, kept duplicate-free in registration order. -/
structure GeoState where
  currentPosition : Option Coords
  callbacks : List ℕ
  errorCallbacks : List ℕ
  watchId : Option ℕ
  isWatching : Bool
  opens : ℕ
  closes : ℕ
  nextWatchId : ℕ
deriving DecidableEq

/-- The freshly constructed service: no position, no subscribers, no watch. -/
def GeoState.init : GeoState :=
  ⟨none, [], [], none, false, 0, 0, 0⟩

/-- `startWatching` (`sharedGeolocation.ts` lines 17-54): returns without
effect when already watching or when `navigator.geolocation` is absent;
otherwise marks the service watching and opens the underlying hardware
watch. -/
def startWatching (hasGeolocation : Bool) (s : GeoState) : GeoState :=
  if s.isWatching || !hasGeolocation then s
  else
    { s with isWatching := true, watchId := some s.nextWatchId,
             nextWatchId := s.nextWatchId + 1, opens := s.opens + 1 }

/-- `stopWatching` (lines 56-63): clears the hardware watch when one is
open, then marks the service as not watching. -/
def stopWatching (s : GeoState) : GeoState :=
  { s with watchId := none,
           closes := s.closes + (if s.watchId.isSome then 1 else 0),
           isWatching := false }

/-- `subscribe` (lines 65-98): a duplicate `onPosition` handle is rejected as
a no-op; otherwise both handles are registered, the most recent sample (if
any) is replayed to the new consumer synchronously during the call (the
returned list holds the samples delivered before `subscribe` returns), and
the hardware watch is started if it is not running. -/
def subscribeGeo (hasGeolocation : Bool) (s : GeoState) (cb errCb : ℕ) :
    GeoState × List Coords :=
  if s.callbacks.contains cb then (s, [])
  else
    let s1 : GeoState :=
      { s with callbacks := s.callbacks ++ [cb],
               errorCallbacks :=
                 if s.errorCallbacks.contains errCb then s.errorCallbacks
                 else s.errorCallbacks ++ [errCb] }
    let delivered :=
      match s.currentPosition with
      | some p => [p]
      | none => []
    let s2 := if s1.isWatching then s1 else startWatching hasGeolocation s1
    (s2, delivered)

/-- The unsubscribe closure returned by `subscribe` (lines 89-97): removes
both handles, and tears down the hardware watch when the last position
consumer is gone. -/
def unsubscribeGeo (s : GeoState) (cb errCb : ℕ) : GeoState :=
  let s1 : GeoState :=
    { s with callbacks := s.callbacks.erase cb,
             errorCallbacks := s.errorCallbacks.erase errCb }
  if s1.callbacks.isEmpty then stopWatching s1 else s1

/-- The hardware watch success callback (lines 26-37): stores the sample as
most recent and fans it out to every registered consumer; the returned list
holds the handles notified, in registration order. -/
def onHardwareSample (s : GeoState) (p : Coords) : GeoState × List ℕ :=
  ({ s with currentPosition := some p }, s.callbacks)

/-- External events driving the shared geolocation service. -/
inductive GeoEvent where
  | subscribeEv (cb errCb : ℕ)
  | unsubscribeEv (cb errCb : ℕ)
  | sampleEv (p : Coords)
deriving DecidableEq

/-- One event applied to the service state. -/
def geoStep (hasGeolocation : Bool) (s : GeoState) : GeoEvent → GeoState
  | .subscribeEv cb errCb => (subscribeGeo hasGeolocation s cb errCb).1
  | .unsubscribeEv cb errCb => unsubscribeGeo s cb errCb
  | .sampleEv p => (onHardwareSample s p).1

/-- The service state reached from the fresh singleton after a sequence of
subscribe, unsubscribe, and hardware-sample events. -/
def geoRun (hasGeolocation : Bool) (evs : List GeoEvent) : GeoState :=
  evs.foldl (geoStep hasGeolocation) GeoState.init

/-- Reference-counting invariant of the shared service: the hardware watch is
open (exactly one more open than close) precisely while there is at least one
registered consumer, and the stored watch handle mirrors the watching flag. -/
@[reducible] def GeoInv (s : GeoState) : Prop :=
  s.opens = s.closes + (if s.callbacks.isEmpty then 0 else 1) ∧
  s.isWatching = !s.callbacks.isEmpty ∧
  s.watchId.isSome = s.isWatching

theorem isEmpty_append_singleton {α : Type} (l : List α) (x : α) :
    (l ++ [x]).isEmpty = false := by
  cases l <;> rfl

theorem geoStep_preserves {s : GeoState} (ev : GeoEvent) (h : GeoInv s) :
    GeoInv (geoStep true s ev) := by
  obtain ⟨h1, h2, h3⟩ := h
  cases ev with
  | sampleEv p => exact ⟨h1, h2, h3⟩
  | subscribeEv cb errCb =>
    show GeoInv (subscribeGeo true s cb errCb).1
    by_cases hc : cb ∈ s.callbacks
    · have hres : (subscribeGeo true s cb errCb).1 = s := by
        simp [subscribeGeo, hc]
      rw [hres]
      exact ⟨h1, h2, h3⟩
    · cases hw : s.isWatching with
      | true =>
        have hne : s.callbacks.isEmpty = false := by
          rw [hw] at h2
          simpa using h2.symm
        have hres : (subscribeGeo true s cb errCb).1 =
            { s with callbacks := s.callbacks ++ [cb],
                     errorCallbacks :=
                       if errCb ∈ s.errorCallbacks then s.errorCallbacks
                       else s.errorCallbacks ++ [errCb] } := by
          simp [subscribeGeo, hc, hw]
        rw [hres]
        refine ⟨?_, ?_, ?_⟩
        · simp only [isEmpty_append_singleton]
          simpa [hne] using h1
        · simp [isEmpty_append_singleton, hw]
        · exact h3
      | false =>
        have hemp : s.callbacks.isEmpty = true := by
          rw [hw] at h2
          simpa using h2.symm
        have hres : (subscribeGeo true s cb errCb).1 =
            { s with callbacks := s.callbacks ++ [cb],
                     errorCallbacks :=
                       if errCb ∈ s.errorCallbacks then s.errorCallbacks
                       else s.errorCallbacks ++ [errCb],
                     isWatching := true, watchId := some s.nextWatchId,
                     nextWatchId := s.nextWatchId + 1,
                     opens := s.opens + 1 } := by
          simp [subscribeGeo, startWatching, hc, hw]
        rw [hres]
        refine ⟨?_, ?_, ?_⟩
        · simp only [isEmpty_append_singleton]
          simp only [hemp] at h1
          simp [h1]
        · simp [isEmpty_append_singleton]
        · rfl
  | unsubscribeEv cb errCb =>
    show GeoInv (unsubscribeGeo s cb errCb)
    by_cases he : (s.callbacks.erase cb).isEmpty
    · have hres : unsubscribeGeo s cb errCb =
          { s with callbacks := s.callbacks.erase cb,
                   errorCallbacks := s.errorCallbacks.erase errCb,
                   watchId := none,
                   closes := s.closes + (if s.watchId.isSome then 1 else 0),
                   isWatching := false } := by
        simp [unsubscribeGeo, stopWatching, he]
      rw [hres]
      cases hemp : s.callbacks.isEmpty with
      | true =>
        have hwf : s.isWatching = false := by
          rw [h2, hemp]
          rfl
        have hwid : s.watchId.isSome = false := by
          rw [h3, hwf]
        refine ⟨?_, ?_, ?_⟩
        · simp only [hwid, he, Bool.false_eq_true, if_false]
          simpa [hemp] using h1
        · simp [he]
        · rfl
      | false =>
        have hwt : s.isWatching = true := by
          rw [h2, hemp]
          rfl
        have hwid : s.watchId.isSome = true := by
          rw [h3, hwt]
        refine ⟨?_, ?_, ?_⟩
        · simp only [hwid, he, if_true]
          simp only [hemp, if_false] at h1
          simp [h1]
        · simp [he]
        · rfl
    · have hres : unsubscribeGeo s cb errCb =
          { s with callbacks := s.callbacks.erase cb,
                   errorCallbacks := s.errorCallbacks.erase errCb } := by
        simp [unsubscribeGeo, he]
      rw [hres]
      have hemp : s.callbacks.isEmpty = false := by
        cases hcb : s.callbacks with
        | nil =>
          rw [hcb] at he
          simp [List.erase] at he
        | cons a l => rfl
      have he' : (s.callbacks.erase cb).isEmpty = false :=
        Bool.eq_false_iff.mpr he
      refine ⟨?_, ?_, ?_⟩
      · simp only [he', if_false]
        simpa [hemp] using h1
      · simp only [he', Bool.not_false]
        rw [h2, hemp]
        rfl
      · exact h3

theorem geoFoldl_inv (evs : List GeoEvent) :
    ∀ s : GeoState, GeoInv s → GeoInv (evs.foldl (geoStep true) s) := by
  induction evs with
  | nil => intro s h; exact h
  | cons ev evs ih => intro s h; exact ih _ (geoStep_preserves ev h)

theorem geoRun_inv (evs : List GeoEvent) : GeoInv (geoRun true evs) :=
  geoFoldl_inv evs GeoState.init ⟨rfl, rfl, rfl⟩

/-- Claim C3: from the fresh service, after any sequence of subscribe,
unsubscribe, and sample events, at most one hardware watch is open (opens
exceed closes by at most one), the watch is open exactly while the consumer
set is nonempty (so a subscribe during an active watch opens no second watch,
the watch is torn down exactly when the consumer count returns to zero, and a
later re-subscribe re-opens it), and the stored watch handle tracks this. -/
theorem shared_watch_refcount (evs : List GeoEvent) :
    (geoRun true evs).opens ≤ (geoRun true evs).closes + 1 ∧
    (geoRun true evs).opens =
      (geoRun true evs).closes +
        (if (geoRun true evs).callbacks.isEmpty then 0 else 1) ∧
    (geoRun true evs).isWatching = !(geoRun true evs).callbacks.isEmpty ∧
    (geoRun true evs).watchId.isSome = (geoRun true evs).isWatching := by
  obtain ⟨h1, h2, h3⟩ := geoRun_inv evs
  refine ⟨?_, h1, h2, h3⟩
  rw [h1]
  split <;> omega

/-- Claim C8: when the service already holds a most-recent sample, a new
(non-duplicate) consumer receives exactly that sample synchronously during
the `subscribe` call, before it returns. -/
theorem subscribe_replays_current (hasGeolocation : Bool) (s : GeoState)
    (cb errCb : ℕ) (p : Coords) (hp : s.currentPosition = some p)
    (hc : ¬ cb ∈ s.callbacks) :
    (subscribeGeo hasGeolocation s cb errCb).2 = [p] := by
  simp [subscribeGeo, hc, hp]

/-- Witness for claim C8: the fresh service holding one sample replays it to
the first subscriber. -/
theorem subscribe_replays_current_witness :
    (subscribeGeo true
        { GeoState.init with currentPosition := some ⟨1, 2, 3, none, none⟩ }
        0 0).2 = [⟨1, 2, 3, none, none⟩] :=
  subscribe_replays_current true
    { GeoState.init with currentPosition := some ⟨1, 2, 3, none, none⟩ }
    0 0 ⟨1, 2, 3, none, none⟩ rfl (by decide)

/-- The coast-guard session vessel record: the `CoastGuardVessel` interface
in `App.tsx`. -/
structure CoastGuardVessel where
  vesselId : String
  vesselName : String
  location : Location
  speed : ℚ
  heading : ℚ
  lastUpdate : ℕ
  isTracking : Bool
deriving DecidableEq

/-- Conversion of a platform speed sample to knots, as computed in the
success callbacks of `CoastGuardLocationTracker.tsx` (lines 60 and 97): the
platform speed times 1.94384 when non-null, else 0. -/
def speedKnots (c : Coords) : ℚ :=
  match c.speed with
  | some v => v * (194384 / 100000)
  | none => 0

/-- Heading pass-through with zero default, as computed in the same
callbacks (lines 61 and 98): the platform heading when non-null, else 0. -/
def headingDegrees (c : Coords) : ℚ :=
  match c.heading with
  | some d => d
  | none => 0

/-- Effects on the browser environment emitted by the `App.tsx` mutation
handlers, in program order. Written blob values are recorded as the vessel
list passed to `JSON.stringify`; key and event names are the literal strings
of the source. -/
inductive Effect where
  | getItem (key : String)
  | setItem (key : String) (value : List BoatData)
  | dispatchEvent (eventName : String)
deriving DecidableEq

/-- The `App` component state relevant to the synchronization mechanism.
`store` holds the parsed content of the mirror key; a missing or malformed
blob reads as `[]`, per `loadVesselsFromStorage`. -/
structure AppState where
  boatData : Option BoatData
  allBoats : List BoatData
  coastGuardVessel : Option CoastGuardVessel
  isCoastGuardTracking : Bool
  isRegistered : Bool
  isTracking : Bool
  store : List BoatData
deriving DecidableEq

/-- The fresh record built by `handleFishermanRegistration` (`App.tsx` lines
180-190): a (0, 0) placeholder location stamped with the registration time,
status safe, zero speed and zero heading. -/
def newBoatFor (aisId boatId fishermanName contactInfo : String) (now : ℕ) :
    BoatData :=
  { aisId := aisId, boatId := boatId,
    location := { lat := 0, lng := 0, timestamp := now },
    status := .safe, speed := 0, heading := 0, lastUpdate := now,
    fishermanName := some fishermanName, contactInfo := some contactInfo }

/-- `handleFishermanRegistration` (`App.tsx` lines 178-247): build the new
record, mark the session registered and tracking, read the mirror, upsert by
`aisId`, write the mirror back, dispatch `vesselsUpdated`, and upsert the
in-memory list the same way. -/
def handleFishermanRegistration (s : AppState)
    (aisId boatId fishermanName contactInfo : String) (now : ℕ) :
    AppState × List Effect :=
  let newBoat := newBoatFor aisId boatId fishermanName contactInfo now
  let vessels := upsertVessels s.store newBoat
  ({ s with boatData := some newBoat, isRegistered := true,
            isTracking := true, store := vessels,
            allBoats := upsertVessels s.allBoats newBoat },
   [Effect.getItem "registeredVessels",
    Effect.setItem "registeredVessels" vessels,
    Effect.dispatchEvent "vesselsUpdated"])

/-- `updateLocation` (`App.tsx` lines 251-284): with a registered boat,
refresh its position and `lastUpdate`, replace it in the in-memory list by
`aisId`, write the list to the mirror, and dispatch `vesselsUpdated`; with no
registered boat, nothing happens. -/
def updateLocation (s : AppState) (lat lng : ℚ) (now : ℕ) :
    AppState × List Effect :=
  match s.boatData with
  | none => (s, [])
  | some bd =>
    let updatedBoat :=
      { bd with location := { lat := lat, lng := lng, timestamp := now },
                lastUpdate := now }
    let updated := s.allBoats.map fun b =>
      if b.aisId == bd.aisId then updatedBoat else b
    ({ s with boatData := some updatedBoat, allBoats := updated,
              store := updated },
     [Effect.setItem "registeredVessels" updated,
      Effect.dispatchEvent "vesselsUpdated"])

/-- `updateBoatStatus` (`App.tsx` lines 295-315): with a registered boat,
replace its status — all other fields, `lastUpdate` included, are spread
unchanged — replace it in the in-memory list, write the mirror, dispatch. -/
def updateBoatStatus (s : AppState) (status : Status) :
    AppState × List Effect :=
  match s.boatData with
  | none => (s, [])
  | some bd =>
    let updatedBoat := { bd with status := status }
    let updated := s.allBoats.map fun b =>
      if b.aisId == bd.aisId then updatedBoat else b
    ({ s with boatData := some updatedBoat, allBoats := updated,
              store := updated },
     [Effect.setItem "registeredVessels" updated,
      Effect.dispatchEvent "vesselsUpdated"])

/-- `updateBoatStatusByCoastGuard` (`App.tsx` lines 345-363): replace the
status of the matching vessel in the in-memory list — other fields spread
unchanged — write the mirror, dispatch, and mirror the change into
`boatData` when it is the session boat. -/
def updateBoatStatusByCoastGuard (s : AppState) (aisId : String)
    (status : Status) : AppState × List Effect :=
  let updated := s.allBoats.map fun b =>
    if b.aisId == aisId then { b with status := status } else b
  let bd1 :=
    match s.boatData with
    | some bd =>
      if bd.aisId == aisId then some { bd with status := status } else some bd
    | none => none
  ({ s with allBoats := updated, store := updated, boatData := bd1 },
   [Effect.setItem "registeredVessels" updated,
    Effect.dispatchEvent "vesselsUpdated"])

/-- `updateCoastGuardLocation` (`App.tsx` lines 142-164): with a coast-guard
vessel present, refresh its position, kinematics (keeping the previous value
when the argument is `undefined`), and `lastUpdate`; no storage access and no
event dispatch. -/
def updateCoastGuardLocation (s : AppState) (lat lng : ℚ)
    (speed heading : Option ℚ) (now : ℕ) : AppState × List Effect :=
  match s.coastGuardVessel with
  | none => (s, [])
  | some v =>
    let updatedVessel :=
      { v with location := { lat := lat, lng := lng, timestamp := now },
               speed := speed.getD v.speed,
               heading := heading.getD v.heading,
               lastUpdate := now }
    ({ s with coastGuardVessel := some updatedVessel }, [])

/-- `toggleCoastGuardTracking` (`App.tsx` lines 166-174): set the tracking
flag on the session and on the coast-guard record; no storage access, no
event dispatch. -/
def toggleCoastGuardTracking (s : AppState) (enabled : Bool) :
    AppState × List Effect :=
  ({ s with isCoastGuardTracking := enabled,
            coastGuardVessel :=
              s.coastGuardVessel.map fun v =>
                { v with isTracking := enabled } },
   [])

/-- Holds when every mirror write in the trace is immediately followed by the
`vesselsUpdated` in-process broadcast. -/
def writesNotified : List Effect → Bool
  | [] => true
  | Effect.setItem _ _ :: rest =>
    (match rest with
     | Effect.dispatchEvent n :: _ => n == "vesselsUpdated"
     | _ => false) && writesNotified rest
  | _ :: rest => writesNotified rest

/-- Claim C4: on every write path — registration, location update, fisherman
status update, coast-guard status update — each mirror write in the emitted
effect trace is immediately followed by the `vesselsUpdated` in-process
broadcast. -/
theorem write_paths_broadcast (s : AppState)
    (aisId boatId name contact : String) (now : ℕ) (lat lng : ℚ)
    (st : Status) :
    writesNotified
        (handleFishermanRegistration s aisId boatId name contact now).2 =
      true ∧
    writesNotified (updateLocation s lat lng now).2 = true ∧
    writesNotified (updateBoatStatus s st).2 = true ∧
    writesNotified (updateBoatStatusByCoastGuard s aisId st).2 = true := by
  refine ⟨rfl, ?_, ?_, rfl⟩
  · cases hbd : s.boatData <;> simp [updateLocation, hbd, writesNotified]
  · cases hbd : s.boatData <;> simp [updateBoatStatus, hbd, writesNotified]

/-- Claim C9: coast-guard record updates never touch the mirror: both the
location update and the tracking toggle leave the stored vessel list
unchanged and emit no storage write and no broadcast. -/
theorem coast_guard_never_persists (s : AppState) (lat lng : ℚ)
    (speed heading : Option ℚ) (now : ℕ) (enabled : Bool) :
    (updateCoastGuardLocation s lat lng speed heading now).1.store =
      s.store ∧
    (updateCoastGuardLocation s lat lng speed heading now).2 = [] ∧
    (toggleCoastGuardTracking s enabled).1.store = s.store ∧
    (toggleCoastGuardTracking s enabled).2 = [] := by
  refine ⟨?_, ?_, rfl, rfl⟩ <;>
    cases hv : s.coastGuardVessel <;>
      simp [updateCoastGuardLocation, hv]

/-- Claim C10: registration persists to the mirror a record with the concrete
placeholder position latitude 0, longitude 0 stamped with the registration
time — not an absent position — status safe, speed 0 and heading 0. -/
theorem registration_placeholder_location (s : AppState)
    (aisId boatId name contact : String) (now : ℕ) :
    (handleFishermanRegistration s aisId boatId name contact
          now).1.store.find? (fun b => b.aisId == aisId) =
      some (newBoatFor aisId boatId name contact now) ∧
    (newBoatFor aisId boatId name contact now).location = ⟨0, 0, now⟩ ∧
    (newBoatFor aisId boatId name contact now).status = Status.safe ∧
    (newBoatFor aisId boatId name contact now).speed = 0 ∧
    (newBoatFor aisId boatId name contact now).heading = 0 := by
  refine ⟨?_, rfl, rfl, rfl, rfl⟩
  exact find?_upsertVessels_eq s.store
    (newBoatFor aisId boatId name contact now) aisId rfl

/-- The tracker success callback feeding the coast-guard record: lines 90-118
of `CoastGuardLocationTracker.tsx` compute `speedKnots` and `headingDegrees`
from the sample and call `onLocationUpdate` with them, which `App.tsx` wires
to `updateCoastGuardLocation` with both kinematic arguments present. -/
def trackerFoldSample (s : AppState) (c : Coords) (now : ℕ) :
    AppState × List Effect :=
  updateCoastGuardLocation s c.latitude c.longitude
    (some (speedKnots c)) (some (headingDegrees c)) now

/-- Spec-side restatement of the speed rule, written from the words of the
spec (multiply the platform linear velocity by 1.94384; default 0 when the
platform reports no speed), to be compared with the code path. -/
def specSpeedRule (c : Coords) : ℚ :=
  match c.speed with
  | some v => v * (194384 / 100000)
  | none => 0

/-- Spec-side restatement of the heading rule, written from the words of the
spec (heading passes through unchanged; default 0 when the platform reports
no heading), to be compared with the code path. -/
def specHeadingRule (c : Coords) : ℚ :=
  match c.heading with
  | some d => d
  | none => 0

theorem speedKnots_eq_spec (c : Coords) : speedKnots c = specSpeedRule c :=
  rfl

theorem headingDegrees_eq_spec (c : Coords) :
    headingDegrees c = specHeadingRule c :=
  rfl

/-- Claim C6: folding a sample into the coast-guard record stores a speed
equal to the platform speed times 1.94384 (zero when the platform reports no
speed) and the platform heading unchanged (zero when the platform reports no
heading); in particular a sample with speed 0 and heading null stores speed 0
and heading 0, never an absent value. -/
theorem sample_fold_kinematics (s : AppState) (v : CoastGuardVessel)
    (c : Coords) (now : ℕ) (hv : s.coastGuardVessel = some v) :
    (trackerFoldSample s c now).1.coastGuardVessel =
      some { v with location := ⟨c.latitude, c.longitude, now⟩,
                    speed := specSpeedRule c,
                    heading := specHeadingRule c,
                    lastUpdate := now } ∧
    (c.speed = some 0 → specSpeedRule c = 0) ∧
    (c.heading = none → specHeadingRule c = 0) := by
  refine ⟨?_, ?_, ?_⟩
  · simp [trackerFoldSample, updateCoastGuardLocation, hv,
      speedKnots_eq_spec, headingDegrees_eq_spec]
  · intro h
    simp [specSpeedRule, h]
  · intro h
    simp [specHeadingRule, h]

/-- Witness for claim C6 at a session with a coast-guard vessel and a sample
reporting speed 0 and a null heading. -/
theorem sample_fold_kinematics_witness :
    (trackerFoldSample
        { boatData := none, allBoats := [],
          coastGuardVessel :=
            some ⟨"CG-1", "Coast Guard Patrol Vessel", ⟨0, 0, 0⟩, 7, 8, 0,
              false⟩,
          isCoastGuardTracking := false, isRegistered := false,
          isTracking := false, store := [] }
        ⟨1, 2, 3, some 0, none⟩ 9).1.coastGuardVessel =
      some ⟨"CG-1", "Coast Guard Patrol Vessel", ⟨1, 2, 9⟩,
        specSpeedRule ⟨1, 2, 3, some 0, none⟩,
        specHeadingRule ⟨1, 2, 3, some 0, none⟩, 9, false⟩ ∧
    ((⟨1, 2, 3, some 0, none⟩ : Coords).speed = some 0 →
      specSpeedRule ⟨1, 2, 3, some 0, none⟩ = 0) ∧
    ((⟨1, 2, 3, some 0, none⟩ : Coords).heading = none →
      specHeadingRule ⟨1, 2, 3, some 0, none⟩ = 0) :=
  sample_fold_kinematics
    { boatData := none, allBoats := [],
      coastGuardVessel :=
        some ⟨"CG-1", "Coast Guard Patrol Vessel", ⟨0, 0, 0⟩, 7, 8, 0,
          false⟩,
      isCoastGuardTracking := false, isRegistered := false,
      isTracking := false, store := [] }
    ⟨"CG-1", "Coast Guard Patrol Vessel", ⟨0, 0, 0⟩, 7, 8, 0, false⟩
    ⟨1, 2, 3, some 0, none⟩ 9 rfl

/-- Claim C7 fails on the code: a fisherman status update mutates the stored
record (its status changes) but leaves `lastUpdate` untouched — the spread in
`updateBoatStatus` copies the old timestamp — so not every record mutation
refreshes the last-update marker. -/
theorem status_update_keeps_lastUpdate :
    ((updateBoatStatus
          { boatData :=
              some ⟨"A", "B", ⟨0, 0, 5⟩, Status.safe, 0, 0, 5, none, none⟩,
            allBoats :=
              [⟨"A", "B", ⟨0, 0, 5⟩, Status.safe, 0, 0, 5, none, none⟩],
            coastGuardVessel := none, isCoastGuardTracking := false,
            isRegistered := true, isTracking := true,
            store :=
              [⟨"A", "B", ⟨0, 0, 5⟩, Status.safe, 0, 0, 5, none, none⟩] }
          Status.danger).1.store.map fun b => (b.status, b.lastUpdate)) =
      [(Status.danger, 5)] := by
  decide

/-- Claim C7 amended: location updates and registration overwrite refresh the
last-update timestamp to the mutation time, but status updates — by the
fisherman or by the coast guard — replace only the status and leave every
last-update timestamp as it was. -/
theorem mutation_lastUpdate_behavior (s : AppState) (bd : BoatData)
    (lat lng : ℚ) (now : ℕ) (st : Status)
    (aisId boatId name contact : String) (h : s.boatData = some bd) :
    (updateLocation s lat lng now).1.boatData =
      some { bd with location := ⟨lat, lng, now⟩, lastUpdate := now } ∧
    (newBoatFor aisId boatId name contact now).lastUpdate = now ∧
    (updateBoatStatus s st).1.boatData = some { bd with status := st } ∧
    ((updateBoatStatusByCoastGuard s aisId st).1.store.map
        fun b => b.lastUpdate) =
      s.allBoats.map fun b => b.lastUpdate := by
  refine ⟨?_, rfl, ?_, ?_⟩
  · simp [updateLocation, h]
  · simp [updateBoatStatus, h]
  · simp only [updateBoatStatusByCoastGuard, List.map_map]
    refine List.map_congr_left ?_
    intro b _
    by_cases hb : b.aisId = aisId <;> simp [hb]

/-- Witness for the amended claim C7 at a registered session. -/
theorem mutation_lastUpdate_behavior_witness :
    (updateLocation
          { boatData :=
              some ⟨"A", "B", ⟨0, 0, 5⟩, Status.safe, 0, 0, 5, none, none⟩,
            allBoats :=
              [⟨"A", "B", ⟨0, 0, 5⟩, Status.safe, 0, 0, 5, none, none⟩],
            coastGuardVessel := none, isCoastGuardTracking := false,
            isRegistered := true, isTracking := true,
            store :=
              [⟨"A", "B", ⟨0, 0, 5⟩, Status.safe, 0, 0, 5, none, none⟩] }
          3 4 9).1.boatData =
      some ⟨"A", "B", ⟨3, 4, 9⟩, Status.safe, 0, 0, 9, none, none⟩ ∧
    (newBoatFor "A" "B" "N" "C" 9).lastUpdate = 9 ∧
    (updateBoatStatus
          { boatData :=
              some ⟨"A", "B", ⟨0, 0, 5⟩, Status.safe, 0, 0, 5, none, none⟩,
            allBoats :=
              [⟨"A", "B", ⟨0, 0, 5⟩, Status.safe, 0, 0, 5, none, none⟩],
            coastGuardVessel := none, isCoastGuardTracking := false,
            isRegistered := true, isTracking := true,
            store :=
              [⟨"A", "B", ⟨0, 0, 5⟩, Status.safe, 0, 0, 5, none, none⟩] }
          Status.danger).1.boatData =
      some ⟨"A", "B", ⟨0, 0, 5⟩, Status.danger, 0, 0, 5, none, none⟩ ∧
    ((updateBoatStatusByCoastGuard
          { boatData :=
              some ⟨"A", "B", ⟨0, 0, 5⟩, Status.safe, 0, 0, 5, none, none⟩,
            allBoats :=
              [⟨"A", "B", ⟨0, 0, 5⟩, Status.safe, 0, 0, 5, none, none⟩],
            coastGuardVessel := none, isCoastGuardTracking := false,
            isRegistered := true, isTracking := true,
            store :=
              [⟨"A", "B", ⟨0, 0, 5⟩, Status.safe, 0, 0, 5, none, none⟩] }
          "A" Status.danger).1.store.map fun b => b.lastUpdate) =
      ([⟨"A", "B", ⟨0, 0, 5⟩, Status.safe, 0, 0, 5, none, none⟩] :
          List BoatData).map fun b => b.lastUpdate :=
  mutation_lastUpdate_behavior
    { boatData :=
        some ⟨"A", "B", ⟨0, 0, 5⟩, Status.safe, 0, 0, 5, none, none⟩,
      allBoats := [⟨"A", "B", ⟨0, 0, 5⟩, Status.safe, 0, 0, 5, none, none⟩],
      coastGuardVessel := none, isCoastGuardTracking := false,
      isRegistered := true, isTracking := true,
      store := [⟨"A", "B", ⟨0, 0, 5⟩, Status.safe, 0, 0, 5, none, none⟩] }
    ⟨"A", "B", ⟨0, 0, 5⟩, Status.safe, 0, 0, 5, none, none⟩
    3 4 9 Status.danger "A" "B" "N" "C" rfl

/-- Tracker permission state: the `locationStatus` component state of
`CoastGuardLocationTracker.tsx` (line 18). -/
inductive LocationStatus where
  | requesting
  | granted
  | denied
  | unavailable
  | timeout
deriving DecidableEq

/-- Local state of the coast-guard tracker component (the `useState` fields
of `CoastGuardLocationTracker.tsx`). -/
structure TrackerState where
  locationStatus : LocationStatus
  errorMessage : String
  retryAttempts : ℕ
  accuracy : ℚ
  speed : ℚ
  heading : ℚ
  lastUpdate : ℕ
deriving DecidableEq

/-- Geolocation API calls issued by the tracker. -/
inductive GeoCall where
  | getCurrentPosition
  | watchPosition
  | clearWatch
deriving DecidableEq

/-- Events acting on the tracker: enabling tracking runs the effect body
(`supportFailure` carries the `checkGeolocationSupport` failure message when
support is missing), disabling runs its cleanup, the geolocation callbacks
fire, the passive synchronization triggers of the surrounding view fire (the
2-second storage poll and the storage reload, which touch no tracker state),
and the user presses the retry button. -/
inductive TrackerEvent where
  | enableTracking (supportFailure : Option String)
  | disableTracking
  | oneShotSuccess (c : Coords) (now : ℕ)
  | oneShotError (code : ℕ) (msg : String)
  | watchSuccess (c : Coords) (now : ℕ)
  | watchError (code : ℕ) (msg : String)
  | storagePoll
  | storageReload
  | retry
deriving DecidableEq

/-- `getGeolocationErrorMessage` (`geolocationDebug.ts` lines 16-25). -/
def getGeolocationErrorMessage (code : ℕ) (msg : String) : String :=
  if code = 1 then
    "Location access was denied. Please check your browser permissions."
  else if code = 2 then
    "Location information is unavailable. Check your GPS signal."
  else if code = 3 then
    "Location request timed out. Please try again."
  else
    "Unknown geolocation error (" ++ toString code ++ "): " ++ msg

/-- One tracker event: the new component state and the geolocation API calls
issued during the event, in order. Per the `useEffect` with dependency
`[isTracking]` (lines 30-162), only enabling tracking issues the one-shot
request and opens the watch, and only disabling clears the watch; the error
callback (lines 120-151) maps the error code to a terminal status; the retry
handler (lines 164-168) only resets component state and issues no call. -/
def trackerStep (s : TrackerState) :
    TrackerEvent → TrackerState × List GeoCall
  | .enableTracking (some failMsg) =>
    ({ s with locationStatus := .unavailable, errorMessage := failMsg }, [])
  | .enableTracking none =>
    (s, [GeoCall.getCurrentPosition, GeoCall.watchPosition])
  | .disableTracking => (s, [GeoCall.clearWatch])
  | .oneShotSuccess c now =>
    ({ s with locationStatus := .granted, accuracy := c.accuracy,
              lastUpdate := now, speed := speedKnots c,
              heading := headingDegrees c }, [])
  | .oneShotError _ _ => (s, [])
  | .watchSuccess c now =>
    ({ s with locationStatus := .granted, accuracy := c.accuracy,
              lastUpdate := now, speed := speedKnots c,
              heading := headingDegrees c }, [])
  | .watchError code msg =>
    ({ s with errorMessage := getGeolocationErrorMessage code msg,
              locationStatus :=
                if code = 1 then .denied
                else if code = 2 then .unavailable
                else if code = 3 then .timeout
                else .denied,
              retryAttempts :=
                if code = 3 then s.retryAttempts + 1
                else s.retryAttempts }, [])
  | .storagePoll => (s, [])
  | .storageReload => (s, [])
  | .retry =>
    ({ s with locationStatus := .requesting, errorMessage := "",
              retryAttempts := 0 }, [])

/-- Claim C5 fails on the code: from the terminal `denied` state the retry
action resets the status to `requesting` but issues no geolocation call at
all — in particular it re-issues neither the one-shot position request nor
the continuous subscription, because `handleRetry` only sets component state
and the effect re-runs only when `isTracking` changes. -/
theorem retry_does_not_reissue :
    (trackerStep ⟨LocationStatus.denied, "e", 2, 0, 0, 0, 0⟩
          TrackerEvent.retry).1.locationStatus =
      LocationStatus.requesting ∧
    (trackerStep ⟨LocationStatus.denied, "e", 2, 0, 0, 0, 0⟩
        TrackerEvent.retry).2 = [] ∧
    ¬ GeoCall.getCurrentPosition ∈
        (trackerStep ⟨LocationStatus.denied, "e", 2, 0, 0, 0, 0⟩
            TrackerEvent.retry).2 ∧
    ¬ GeoCall.watchPosition ∈
        (trackerStep ⟨LocationStatus.denied, "e", 2, 0, 0, 0, 0⟩
            TrackerEvent.retry).2 := by
  refine ⟨rfl, rfl, ?_, ?_⟩ <;> simp [trackerStep]

/-- Claim C5 amended: `denied`, `unavailable` and `timeout` are unchanged by
the passive triggers (storage poll and storage reload leave the whole
tracker state untouched); only the explicit retry action resets the status to
`requesting`, clearing the error message and retry counter, but it issues no
geolocation call — the one-shot request and the continuous subscription are
issued only when tracking is enabled. -/
theorem terminal_states_need_retry (s : TrackerState) :
    trackerStep s TrackerEvent.storagePoll = (s, []) ∧
    trackerStep s TrackerEvent.storageReload = (s, []) ∧
    trackerStep s TrackerEvent.retry =
      ({ s with locationStatus := .requesting, errorMessage := "",
                retryAttempts := 0 }, []) ∧
    trackerStep s (TrackerEvent.enableTracking none) =
      (s, [GeoCall.getCurrentPosition, GeoCall.watchPosition]) ∧
    (∀ ev, (trackerStep s ev).1.locationStatus = LocationStatus.requesting →
      ev = TrackerEvent.retry ∨
        s.locationStatus = LocationStatus.requesting) := by
  refine ⟨rfl, rfl, rfl, rfl, ?_⟩
  intro ev hev
  cases ev with
  | enableTracking sf =>
    cases sf with
    | none => exact Or.inr hev
    | some m => simp [trackerStep] at hev
  | disableTracking => exact Or.inr hev
  | oneShotSuccess c now => simp [trackerStep] at hev
  | oneShotError code msg => exact Or.inr hev
  | watchSuccess c now => simp [trackerStep] at hev
  | watchError code msg =>
    exfalso
    simp only [trackerStep] at hev
    by_cases h1 : code = 1
    · simp [h1] at hev
    · by_cases h2 : code = 2
      · simp [h1, h2] at hev
      · by_cases h3 : code = 3
        · simp [h1, h2, h3] at hev
        · simp [h1, h2, h3] at hev
  | storagePoll => exact Or.inr hev
  | storageReload => exact Or.inr hev
  | retry => exact Or.inl rfl

end Maritime
